import Mathlib

set_option maxRecDepth 8192

/-!
Shallow embedding of the HP OMEN FourZone RGB keyboard driver
(`src/hp-wmi.c` and the animation-enabled variant) in Lean 4.

Machine integers are modelled as `Nat`/`Int`; assignment to a `u8` field is
an explicit `% 256`.  The WMI transport is modelled explicitly: a firmware
GET returns the current 128-byte frame and a SET replaces it.  The state
file is a byte list.  The target platform of the driver is little-endian
x86, so the `union color_union` byte reinterpretation in `parse_rgb` is
modelled with little-endian byte extraction.
-/

/-- Truncation to an 8-bit value, as performed by assigning an `int`
expression to a `u8` struct field in C. -/
def u8 (n : Nat) : Nat := n % 256

/-- The C struct `color_platform` (fields `u8 blue; u8 green; u8 red`) — field order as
declared in the source (blue first). -/
structure Color where
  blue : Nat
  green : Nat
  red : Nat
deriving Repr, DecidableEq

/-- A color whose channels are genuine 8-bit values. -/
def Color.wf (c : Color) : Prop := c.blue < 256 ∧ c.green < 256 ∧ c.red < 256

instance (c : Color) : Decidable c.wf := by unfold Color.wf; infer_instance

/-- The kernel's invalid-argument error code `-EINVAL`. -/
def EINVAL_err : Int := -22

/-- Function `encode_outsize_for_pvsz(int outsize)`: maps a requested output length
to a WMI transport size class. -/
def encode_outsize_for_pvsz (outsize : Int) : Int :=
  if outsize > 4096 then EINVAL_err
  else if outsize > 1024 then 5
  else if outsize > 128 then 4
  else if outsize > 4 then 3
  else if outsize > 0 then 2
  else 1

/-- Function `parse_rgb(const char *buf, struct platform_zone *zone)`.

The call `kstrtoul(buf, 16, &rgb)` is external kernel library code; its
outcome is passed in as `kstr` (`.error e` when the string does not parse
as base 16, `.ok rgb` otherwise).  On success the value is range-checked
against `0xFFFFFF` and then reinterpreted through
`union color_union { struct color_platform cp; int package; }` on a
little-endian machine: byte 0 of the integer is `blue`, byte 1 `green`,
byte 2 `red`. -/
def parse_rgb (kstr : Except Int Nat) : Except Int Color :=
  match kstr with
  | .error e => .error e
  | .ok rgb =>
    if rgb > 0xFFFFFF then .error EINVAL_err
    else .ok { blue := rgb % 256, green := rgb / 256 % 256, red := rgb / 65536 % 256 }

/-- Per-channel brightness scaling `(channel * percent) / 100`, assigned
back to a `u8` field. -/
def scaleChan (c percent : Nat) : Nat := u8 (c * percent / 100)

/-- Function `apply_brightness_to_color(struct color_platform *color)`: scales each
channel by `global_brightness` (passed explicitly here) with truncating
division. -/
def apply_brightness_to_color (brightness : Nat) (c : Color) : Color :=
  { red := scaleChan c.red brightness
    green := scaleChan c.green brightness
    blue := scaleChan c.blue brightness }

/-- Zone `i`'s offset into the 128-byte frame: `25 + (zone * 3)`. -/
def zoneOffset (i : Nat) : Nat := 25 + 3 * i

/-- The write half of `fourzone_update_led`'s frame edit:
`state[offset+0] = red; state[offset+1] = green; state[offset+2] = blue`. -/
def writeZoneToFrame (frame : List Nat) (off : Nat) (c : Color) : List Nat :=
  ((frame.set off c.red).set (off + 1) c.green).set (off + 2) c.blue

/-- The read half of `fourzone_update_led`:
`red = state[offset+0]; green = state[offset+1]; blue = state[offset+2]`. -/
def readZoneFromFrame (frame : List Nat) (off : Nat) : Color :=
  { red := frame.getD off 0
    green := frame.getD (off + 1) 0
    blue := frame.getD (off + 2) 0 }

/-- A WMI firmware query, as issued through `hp_wmi_perform_query` by the
zone update path: a full-frame GET (`HPWMI_FOURZONE_COLOR_GET`) or a
full-frame SET (`HPWMI_FOURZONE_COLOR_SET`) carrying the 128-byte frame. -/
inductive WmiQuery where
  | get : WmiQuery
  | set : List Nat → WmiQuery
deriving Repr, DecidableEq

/-- Constant `ANIMATION_STATIC` (= 0) from `enum animation_mode`. -/
def ANIMATION_STATIC : Nat := 0

/-- Constant `ANIMATION_COUNT` (= 10) from `enum animation_mode`. -/
def ANIMATION_COUNT : Nat := 10

/-- Constant `ANIMATION_DISCO` (= 9) from `enum animation_mode`. -/
def ANIMATION_DISCO : Nat := 9

/-- The driver's mutable state, gathered from the file-scope globals of the
animation-enabled driver variant, together with the firmware-side 128-byte
frame (`hwFrame`) and the persisted state file (`savedState`).  The WMI
transport is modelled as ideal: a GET returns `hwFrame`, a SET replaces it,
and both report firmware status 0. -/
structure Driver where
  hwFrame : List Nat
  zoneColors : List Color
  originalColors : List Color
  globalBrightness : Nat
  currentAnimation : Nat
  animationSpeed : Nat
  animationActive : Bool
  timerArmed : Bool
  animationStartTime : Nat
  savedState : Option (List Nat)
deriving Repr, DecidableEq

/-- Well-formedness of the driver state: the frame is 128 genuine bytes,
there are four zones with 8-bit channels, and the brightness percentage is
in range — all maintained by the driver code. -/
def Driver.wf (s : Driver) : Prop :=
  s.hwFrame.length = 128 ∧ (∀ b ∈ s.hwFrame, b < 256) ∧
  s.zoneColors.length = 4 ∧ (∀ c ∈ s.zoneColors, c.wf) ∧
  s.originalColors.length = 4 ∧ (∀ c ∈ s.originalColors, c.wf) ∧
  s.globalBrightness ≤ 100

instance (s : Driver) : Decidable s.wf := by unfold Driver.wf; infer_instance

/-- Call `fourzone_update_led(&zone_data[i], HPWMI_WRITE)` under the ideal
transport: a full-frame GET, the 3-byte edit at the zone's offset with the
zone's current color, then a full-frame SET of the edited frame. -/
def fourzone_write (s : Driver) (i : Nat) : Driver × List WmiQuery :=
  let f := writeZoneToFrame s.hwFrame (zoneOffset i) (s.zoneColors.getD i ⟨0, 0, 0⟩)
  ({ s with hwFrame := f }, [.get, .set f])

/-- Call `fourzone_update_led(&zone_data[i], HPWMI_READ)` under the ideal
transport: a full-frame GET, then extraction of the zone's 3 bytes into the
zone's color. -/
def fourzone_read (s : Driver) (i : Nat) : Driver × List WmiQuery :=
  ({ s with zoneColors := s.zoneColors.set i (readZoneFromFrame s.hwFrame (zoneOffset i)) },
   [.get])

/-- Little-endian encoding of a C `int` (or `enum`) field as 4 bytes, as it
lies in the `struct animation_state` record written by `kernel_write`. -/
def encInt32 (x : Int) : List Nat :=
  let n := (x % 4294967296).toNat
  [n % 256, n / 256 % 256, n / 65536 % 256, n / 16777216 % 256]

/-- Decoding of a little-endian C `int` field from 4 record bytes. -/
def decInt32 (b0 b1 b2 b3 : Nat) : Int :=
  let n := b0 + 256 * b1 + 65536 * b2 + 16777216 * b3
  if n < 2147483648 then (n : Int) else (n : Int) - 4294967296

/-- A `struct color_platform` as it lies in the record: blue, green, red. -/
def encColor (c : Color) : List Nat := [c.blue, c.green, c.red]

/-- A `struct color_platform` read back from the record at offset `k`. -/
def decColor (b : List Nat) (k : Nat) : Color :=
  { blue := b.getD k 0, green := b.getD (k + 1) 0, red := b.getD (k + 2) 0 }

/-- The bytes of `struct animation_state` (24 bytes, no padding): mode,
speed, brightness as little-endian 4-byte ints, then four packed colors. -/
def encRecord (mode speed brightness : Int) (cols : List Color) : List Nat :=
  encInt32 mode ++ encInt32 speed ++ encInt32 brightness ++ (cols.map encColor).flatten

/-- Function `save_animation_state()`: builds the record from the current mode,
speed, brightness and the four original colors and overwrites the state
file (failure is logged only; the model takes the successful path). -/
def save_animation_state (s : Driver) : Driver :=
  let recBytes := encRecord s.currentAnimation s.animationSpeed s.globalBrightness s.originalColors
  { s with savedState := some recBytes }

/-- Function `load_animation_state()` applied to the contents of the state file.
`none` models an absent file.  `kernel_read` asks for 24 bytes, so a file
with fewer than 24 bytes makes `ret != sizeof(state)` and the record is
rejected; a longer file yields exactly the first 24 bytes.  Mode, speed and
brightness are each range-checked independently; the colors are restored
unconditionally. -/
def load_animation_state (file : Option (List Nat)) (s : Driver) : Driver :=
  match file with
  | none => s
  | some b =>
    if b.length < 24 then s
    else
      let mode := decInt32 (b.getD 0 0) (b.getD 1 0) (b.getD 2 0) (b.getD 3 0)
      let speed := decInt32 (b.getD 4 0) (b.getD 5 0) (b.getD 6 0) (b.getD 7 0)
      let brightness := decInt32 (b.getD 8 0) (b.getD 9 0) (b.getD 10 0) (b.getD 11 0)
      let s := if 0 ≤ mode ∧ mode < (ANIMATION_COUNT : Int) then
        { s with currentAnimation := mode.toNat } else s
      let s := if 1 ≤ speed ∧ speed ≤ 10 then
        { s with animationSpeed := speed.toNat } else s
      let s := if 0 ≤ brightness ∧ brightness ≤ 100 then
        { s with globalBrightness := brightness.toNat } else s
      { s with originalColors := [decColor b 12, decColor b 15, decColor b 18, decColor b 21] }

/-- Function `stop_animation()`: clears the active flag, deletes the timer, then for
every zone restores the original color scaled by the global brightness and
writes it to hardware. -/
def stop_animation (s : Driver) : Driver × List WmiQuery :=
  let s := { s with animationActive := false, timerArmed := false }
  (List.range 4).foldl
    (fun acc z =>
      let st := acc.1
      let c := apply_brightness_to_color st.globalBrightness
        (st.originalColors.getD z ⟨0, 0, 0⟩)
      let st := { st with zoneColors := st.zoneColors.set z c }
      let (st, tr) := fourzone_write st z
      (st, acc.2 ++ tr))
    (s, [])

/-- Function `start_animation()`: no-op (active cleared) in static mode; otherwise
captures the start time, marks active and arms the 50 ms timer. -/
def start_animation (s : Driver) (now : Nat) : Driver :=
  if s.currentAnimation = ANIMATION_STATIC then { s with animationActive := false }
  else { s with animationStartTime := now, animationActive := true, timerArmed := true }

/-- Handler `zone_set` for zone `i` (the animation-enabled variant).  `kstr` is the
outcome of `kstrtoul(buf, 16, &rgb)`.  Note the source order: `parse_rgb`
stores the parsed color into `target_zone->colors` first, then
`stop_animation()` runs (overwriting every zone's color, the target's
included, with the scaled original), and only then is
`target_zone->colors` recorded as the zone's original color and rescaled. -/
def zone_set (s : Driver) (i : Nat) (kstr : Except Int Nat) : Int × Driver × List WmiQuery :=
  match parse_rgb kstr with
  | .error e => (e, s, [])
  | .ok c =>
    let s := { s with zoneColors := s.zoneColors.set i c }
    let (s, tr1) := stop_animation s
    let s := { s with currentAnimation := ANIMATION_STATIC }
    let cur := s.zoneColors.getD i ⟨0, 0, 0⟩
    let s := { s with originalColors := s.originalColors.set i cur }
    let scaled := apply_brightness_to_color s.globalBrightness cur
    let s := { s with zoneColors := s.zoneColors.set i scaled }
    let (s, tr2) := fourzone_write s i
    let s := save_animation_state s
    (0, s, tr1 ++ tr2)

/-- Handler `all_set` (the animation-enabled variant): parse into a temporary,
stop the animation, switch to static, then for each zone store the parsed
color as original, scale it and write it. -/
def all_set (s : Driver) (kstr : Except Int Nat) : Int × Driver × List WmiQuery :=
  match parse_rgb kstr with
  | .error e => (e, s, [])
  | .ok temp =>
    let (s, tr1) := stop_animation s
    let s := { s with currentAnimation := ANIMATION_STATIC }
    let (s, tr) := (List.range 4).foldl
      (fun acc z =>
        let st := acc.1
        let st := { st with originalColors := st.originalColors.set z temp }
        let scaled := apply_brightness_to_color st.globalBrightness temp
        let st := { st with zoneColors := st.zoneColors.set z scaled }
        let (st, tr2) := fourzone_write st z
        (st, acc.2 ++ tr2))
      (s, tr1)
    (0, save_animation_state s, tr)

/-- Handler `brightness_set` (the animation-enabled variant).  `kstr` is the
outcome of `kstrtoul(buf, 10, &level)`; values above 100 clamp to 100.
For each zone: read the current color from hardware, store it as the
original color, scale it by the new level, write it back.  No call to
`stop_animation` and no change to `current_animation` occur. -/
def brightness_set (s : Driver) (kstr : Option Nat) : Int × Driver × List WmiQuery :=
  match kstr with
  | none => (EINVAL_err, s, [])
  | some lvl =>
    let level := min lvl 100
    let s := { s with globalBrightness := level }
    let (s, tr) := (List.range 4).foldl
      (fun acc z =>
        let st := acc.1
        let c := readZoneFromFrame st.hwFrame (zoneOffset z)
        let st := { st with zoneColors := st.zoneColors.set z c }
        let st := { st with originalColors := st.originalColors.set z c }
        let scaled := apply_brightness_to_color level c
        let st := { st with zoneColors := st.zoneColors.set z scaled }
        let (st, tr2) := fourzone_write st z
        (st, acc.2 ++ [WmiQuery.get] ++ tr2))
      (s, [])
    (0, save_animation_state s, tr)

/-- Function `update_all_zones_with_colors(colors)`: for each zone, install the
generated frame color, apply the global brightness to it and write it. -/
def update_all_zones_with_colors (s : Driver) (colors : List Color) : Driver × List WmiQuery :=
  (List.range 4).foldl
    (fun acc z =>
      let st := acc.1
      let scaled := apply_brightness_to_color st.globalBrightness (colors.getD z ⟨0, 0, 0⟩)
      let st := { st with zoneColors := st.zoneColors.set z scaled }
      let (st, tr) := fourzone_write st z
      (st, acc.2 ++ tr))
    (s, [])

/-- Conversion of a C `int` expression to `u8`: reduction modulo 256. -/
def u8i (x : Int) : Nat := (x % 256).toNat

/-- Function `simple_sin(int angle_degrees)`: the four-segment piecewise-linear sine
approximation, C truncating division and remainder (`Int.tdiv`/`Int.tmod`). -/
def simple_sin (angle : Int) : Int :=
  let a := Int.tmod angle 360
  let a := if a < 0 then a + 360 else a
  if a < 90 then Int.tdiv (a * 100) 90
  else if a < 180 then Int.tdiv ((180 - a) * 100) 90
  else if a < 270 then Int.tdiv (-((a - 180) * 100)) 90
  else Int.tdiv (-((360 - a) * 100)) 90

/-- Function `hsv_to_rgb(int h, int s, int v, struct color_platform *rgb)`. -/
def hsv_to_rgb (h s v : Int) : Color :=
  let c := Int.tdiv (v * s) 100
  let x := Int.tdiv (c * (60 - |Int.tmod h 120 - 60|)) 60
  let m := v - c
  let rgb : Int × Int × Int :=
    if h < 60 then (c, x, 0)
    else if h < 120 then (x, c, 0)
    else if h < 180 then (0, c, x)
    else if h < 240 then (0, x, c)
    else if h < 300 then (x, 0, c)
    else (c, 0, x)
  { red := u8i (Int.tdiv ((rgb.1 + m) * 255) 100)
    green := u8i (Int.tdiv ((rgb.2.1 + m) * 255) 100)
    blue := u8i (Int.tdiv ((rgb.2.2 + m) * 255) 100) }

/-- Conversion `msecs_to_jiffies`, modelled with HZ = 1000 (1 jiffy = 1 ms), so all
animation times are in milliseconds. -/
def msecs_to_jiffies (m : Nat) : Nat := m

/-- The per-channel pattern `colors[zone].ch = (colors[zone].ch * intensity) / 100`
appearing in each generator: C `int` arithmetic assigned back to a `u8`. -/
def intensityChan (c : Nat) (intensity : Int) : Nat :=
  u8i (Int.tdiv ((c : Int) * intensity) 100)

/-- Scaling a whole color by an intensity percentage, as each generator does. -/
def intensityColor (c : Color) (intensity : Int) : Color :=
  { red := intensityChan c.red intensity
    green := intensityChan c.green intensity
    blue := intensityChan c.blue intensity }

/-- Effect `animation_breathing()`: all zones oscillate together over a
2000 ms / speed cycle. -/
def animation_breathing (s : Driver) (elapsed : Nat) : Driver × List WmiQuery :=
  let cycle_time := msecs_to_jiffies (2000 / s.animationSpeed)
  let cycle_pos := elapsed % cycle_time
  let angle : Int := ((360 * cycle_pos) / cycle_time : Nat)
  let intensity : Int := 50 + Int.tdiv (50 * simple_sin angle) 100
  let colors := (List.range 4).map
    (fun z => intensityColor (s.originalColors.getD z ⟨0, 0, 0⟩) intensity)
  update_all_zones_with_colors s colors

/-- Effect `animation_rainbow()`: per-zone hue offset of 90° over a
3000 ms / speed cycle, full saturation and value. -/
def animation_rainbow (s : Driver) (elapsed : Nat) : Driver × List WmiQuery :=
  let cycle_time := msecs_to_jiffies (3000 / s.animationSpeed)
  let cycle_pos := elapsed % cycle_time
  let colors := (List.range 4).map
    (fun z => hsv_to_rgb (((360 * cycle_pos / cycle_time + z * 90) % 360 : Nat)) 100 100)
  update_all_zones_with_colors s colors

/-- Effect `animation_wave()`: intensity discretized to 4 steps per zone per
2000 ms / speed cycle. -/
def animation_wave (s : Driver) (elapsed : Nat) : Driver × List WmiQuery :=
  let cycle_time := msecs_to_jiffies (2000 / s.animationSpeed)
  let cycle_pos := elapsed % cycle_time
  let colors := (List.range 4).map (fun z =>
    let wave_pos := (cycle_pos * 4 / cycle_time + z) % 4
    let angle : Int := ((360 * wave_pos) / 4 : Nat)
    let intensity : Int := 30 + Int.tdiv (70 * (100 + simple_sin angle)) 200
    intensityColor (s.originalColors.getD z ⟨0, 0, 0⟩) intensity)
  update_all_zones_with_colors s colors

/-- Effect `animation_pulse()`: all zones pulse together over a
1500 ms / speed cycle. -/
def animation_pulse (s : Driver) (elapsed : Nat) : Driver × List WmiQuery :=
  let cycle_time := msecs_to_jiffies (1500 / s.animationSpeed)
  let cycle_pos := elapsed % cycle_time
  let angle : Int := ((360 * cycle_pos) / cycle_time : Nat)
  let intensity : Int := 20 + Int.tdiv (80 * (100 + simple_sin angle)) 200
  let colors := (List.range 4).map
    (fun z => intensityColor (s.originalColors.getD z ⟨0, 0, 0⟩) intensity)
  update_all_zones_with_colors s colors

/-- Effect `animation_chase()`: one zone at zone 0's full original color, the rest
dimmed to 1/6, over a 1200 ms / speed cycle. -/
def animation_chase (s : Driver) (elapsed : Nat) : Driver × List WmiQuery :=
  let cycle_time := msecs_to_jiffies (1200 / s.animationSpeed)
  let cycle_pos := elapsed % cycle_time
  let active_zone := (cycle_pos * 4) / cycle_time
  let base := s.originalColors.getD 0 ⟨0, 0, 0⟩
  let colors := (List.range 4).map (fun z =>
    if z = active_zone then base
    else { blue := u8 (base.blue / 6), green := u8 (base.green / 6), red := u8 (base.red / 6) })
  update_all_zones_with_colors s colors

/-- Effect `animation_sparkle()`: each zone flashes white for 1/8 of a
3000 ms / speed cycle, 800 ms offset per zone, otherwise zone 0's original
color dimmed to 1/8. -/
def animation_sparkle (s : Driver) (elapsed : Nat) : Driver × List WmiQuery :=
  let cycle_time := msecs_to_jiffies (3000 / s.animationSpeed)
  let base := s.originalColors.getD 0 ⟨0, 0, 0⟩
  let colors := (List.range 4).map (fun z =>
    let sparkle_offset := (elapsed + z * 800) % cycle_time
    let sparkle_duration := cycle_time / 8
    if sparkle_offset < sparkle_duration then { blue := 255, green := 255, red := 255 }
    else { blue := u8 (base.blue / 8), green := u8 (base.green / 8), red := u8 (base.red / 8) })
  update_all_zones_with_colors s colors

/-- Effect `animation_candle()`: warm palette (255, 150, 50) flickering over a
100 ms / speed cycle with a 500 ms per-zone offset. -/
def animation_candle (s : Driver) (elapsed : Nat) : Driver × List WmiQuery :=
  let cycle_time := msecs_to_jiffies (100 / s.animationSpeed)
  let cycle_pos := elapsed % cycle_time
  let colors := (List.range 4).map (fun z =>
    let flicker := (cycle_pos + z * 500) % cycle_time
    let intensity : Int := 60 + ((40 * flicker) / cycle_time : Nat)
    { blue := intensityChan 50 intensity
      green := intensityChan 150 intensity
      red := intensityChan 255 intensity })
  update_all_zones_with_colors s colors

/-- Effect `animation_aurora()`: fixed green/blue palette (20, 200, 180) with a
per-zone phase shift over a 4000 ms / speed cycle. -/
def animation_aurora (s : Driver) (elapsed : Nat) : Driver × List WmiQuery :=
  let cycle_time := msecs_to_jiffies (4000 / s.animationSpeed)
  let cycle_pos := elapsed % cycle_time
  let colors := (List.range 4).map (fun z =>
    let wave_pos := (cycle_pos * 2 + z * 1000) % cycle_time
    let intensity : Int :=
      30 + Int.tdiv (70 * (100 + simple_sin ((360 * wave_pos) / cycle_time : Nat))) 200
    { blue := intensityChan 180 intensity
      green := intensityChan 200 intensity
      red := intensityChan 20 intensity })
  update_all_zones_with_colors s colors

/-- Effect `animation_disco()`: first half of a 300 ms / speed cycle shows four
fixed saturated colors, second half is all off. -/
def animation_disco (s : Driver) (elapsed : Nat) : Driver × List WmiQuery :=
  let cycle_time := msecs_to_jiffies (300 / s.animationSpeed)
  let cycle_pos := elapsed % cycle_time
  let colors : List Color :=
    if cycle_pos < cycle_time / 2 then
      [⟨0, 0, 255⟩, ⟨0, 255, 0⟩, ⟨255, 0, 0⟩, ⟨255, 0, 255⟩]
    else
      [⟨0, 0, 0⟩, ⟨0, 0, 0⟩, ⟨0, 0, 0⟩, ⟨0, 0, 0⟩]
  update_all_zones_with_colors s colors

/-- Worker `animation_work_func()`: the deferred frame computation, dispatching on
the current animation mode.  `elapsed` is `jiffies - animation_start_time`. -/
def animation_work_func (s : Driver) (elapsed : Nat) : Driver × List WmiQuery :=
  if ¬s.animationActive ∨ s.currentAnimation = ANIMATION_STATIC then (s, [])
  else if s.currentAnimation = 1 then animation_breathing s elapsed
  else if s.currentAnimation = 2 then animation_rainbow s elapsed
  else if s.currentAnimation = 3 then animation_wave s elapsed
  else if s.currentAnimation = 4 then animation_pulse s elapsed
  else if s.currentAnimation = 5 then animation_chase s elapsed
  else if s.currentAnimation = 6 then animation_sparkle s elapsed
  else if s.currentAnimation = 7 then animation_candle s elapsed
  else if s.currentAnimation = 8 then animation_aurora s elapsed
  else if s.currentAnimation = ANIMATION_DISCO then animation_disco s elapsed
  else (s, [])

/-- The `union acpi_object *obj` outcome of `wmi_evaluate_method`: absent,
of non-buffer type, or a raw byte buffer whose first 8 bytes are
`struct bios_return { u32 sigpass; u32 return_code; }` followed by the
payload. -/
inductive AcpiObj where
  | absent : AcpiObj
  | nonBuffer : AcpiObj
  | buffer : Nat → Nat → List Nat → AcpiObj
deriving Repr, DecidableEq

/-- Reinterpretation of a `u32` value as a C `int` (two's complement). -/
def toInt32 (n : Nat) : Int :=
  let m := n % 4294967296
  if m < 2147483648 then (m : Int) else (m : Int) - 4294967296

/-- Outcome of `hp_wmi_perform_query`: the returned `int`, the caller's
output buffer after the copy/zero-fill, and whether the firmware-status
`pr_warn` fired. -/
structure QueryResult where
  ret : Int
  outBuf : List Nat
  statusWarned : Bool
deriving Repr, DecidableEq

/-- Function `hp_wmi_perform_query(query, command, buffer, insize, outsize)` with the
transport's reply passed in as `resp`.  Mirrors the source: encode the
output size class (fail fast if invalid), reject `insize` over 128, treat a
missing or non-buffer reply as `-EINVAL`, surface a non-zero firmware
status (warning logged unless it is `HPWMI_RET_UNKNOWN_COMMAND` = 0x03 or
`HPWMI_RET_UNKNOWN_CMDTYPE` = 0x04), and on success copy
`min(outsize, reply_length - 8)` payload bytes and zero-fill the rest. -/
def hp_wmi_perform_query (buffer : List Nat) (insize outsize : Int)
    (resp : AcpiObj) : QueryResult :=
  let mid := encode_outsize_for_pvsz outsize
  if mid < 0 then ⟨mid, buffer, false⟩
  else if insize > 128 then ⟨EINVAL_err, buffer, false⟩
  else
    match resp with
    | .absent => ⟨EINVAL_err, buffer, false⟩
    | .nonBuffer => ⟨EINVAL_err, buffer, false⟩
    | .buffer _sigpass rc payload =>
      let ret := toInt32 rc
      if ret ≠ 0 then ⟨ret, buffer, ret != 3 && ret != 4⟩
      else if outsize = 0 then ⟨0, buffer, false⟩
      else
        let actual := min outsize (payload.length : Int)
        ⟨0, payload.take actual.toNat ++ List.replicate (outsize - actual).toNat 0, false⟩

/-- Full-intensity white, `FFFFFF`. -/
def whiteC : Color := ⟨255, 255, 255⟩

/-- A quiescent driver state: static mode, all zones black, full
brightness, dark frame. -/
def initState : Driver :=
  { hwFrame := List.replicate 128 0
    zoneColors := List.replicate 4 ⟨0, 0, 0⟩
    originalColors := List.replicate 4 ⟨0, 0, 0⟩
    globalBrightness := 100
    currentAnimation := ANIMATION_STATIC
    animationSpeed := 1
    animationActive := false
    timerArmed := false
    animationStartTime := 0
    savedState := none }

/-- A well-formed driver state with the disco effect running at speed 1,
all original colors white, full brightness. -/
def discoState : Driver :=
  { hwFrame := List.replicate 128 0
    zoneColors := List.replicate 4 whiteC
    originalColors := List.replicate 4 whiteC
    globalBrightness := 100
    currentAnimation := ANIMATION_DISCO
    animationSpeed := 1
    animationActive := true
    timerArmed := true
    animationStartTime := 0
    savedState := none }

/-- A well-formed static driver state whose hardware frame is lit at full
white (every byte 255), full brightness. -/
def brightState : Driver :=
  { hwFrame := List.replicate 128 255
    zoneColors := List.replicate 4 whiteC
    originalColors := List.replicate 4 whiteC
    globalBrightness := 100
    currentAnimation := ANIMATION_STATIC
    animationSpeed := 1
    animationActive := false
    timerArmed := false
    animationStartTime := 0
    savedState := none }

/-- A 25-byte state file: a well-formed 24-byte record with one trailing
byte appended. -/
def longStateFile : List Nat :=
  encRecord 5 5 50 [⟨1, 2, 3⟩, ⟨4, 5, 6⟩, ⟨7, 8, 9⟩, ⟨10, 11, 12⟩] ++ [0]

/-! ## Helper lemmas -/

theorem getD_set_self {α} (l : List α) (i : Nat) (a d : α) (h : i < l.length) :
    (l.set i a).getD i d = a := by
  simp [List.getD_eq_getElem?_getD, List.getElem?_set_eq_of_lt, h]

theorem getD_set_other {α} (l : List α) {i j : Nat} (a d : α) (h : i ≠ j) :
    (l.set i a).getD j d = l.getD j d := by
  simp [List.getD_eq_getElem?_getD, List.getElem?_set_ne h]

theorem length_writeZoneToFrame (f : List Nat) (off : Nat) (c : Color) :
    (writeZoneToFrame f off c).length = f.length := by
  simp [writeZoneToFrame]

theorem readZone_writeZone_same (f : List Nat) (off : Nat) (c : Color)
    (h : off + 2 < f.length) :
    readZoneFromFrame (writeZoneToFrame f off c) off = ⟨c.blue, c.green, c.red⟩ := by
  have hred : (((f.set off c.red).set (off + 1) c.green).set (off + 2) c.blue).getD off 0
      = c.red := by
    rw [getD_set_other _ _ _ (by omega), getD_set_other _ _ _ (by omega),
        getD_set_self _ _ _ _ (by omega)]
  have hgreen : (((f.set off c.red).set (off + 1) c.green).set (off + 2) c.blue).getD
      (off + 1) 0 = c.green := by
    rw [getD_set_other _ _ _ (by omega), getD_set_self _ _ _ _ (by simp; omega)]
  have hblue : (((f.set off c.red).set (off + 1) c.green).set (off + 2) c.blue).getD
      (off + 2) 0 = c.blue := by
    rw [getD_set_self _ _ _ _ (by simp; omega)]
  unfold readZoneFromFrame writeZoneToFrame
  rw [hred, hgreen, hblue]

theorem readZone_writeZone_disjoint (f : List Nat) (off off' : Nat) (c : Color)
    (h : off' + 2 < off ∨ off + 2 < off') :
    readZoneFromFrame (writeZoneToFrame f off c) off' = readZoneFromFrame f off' := by
  unfold readZoneFromFrame writeZoneToFrame
  rw [getD_set_other _ _ _ (by omega), getD_set_other _ _ _ (by omega),
      getD_set_other _ _ _ (by omega), getD_set_other _ _ _ (by omega),
      getD_set_other _ _ _ (by omega), getD_set_other _ _ _ (by omega),
      getD_set_other _ _ _ (by omega), getD_set_other _ _ _ (by omega),
      getD_set_other _ _ _ (by omega)]

theorem brightness_set_spec (s : Driver) (hf : s.hwFrame.length = 128)
    (hz : s.zoneColors.length = 4) (ho : s.originalColors.length = 4) (lvl : Nat) :
    ((brightness_set s (some lvl)).2.1.globalBrightness = min lvl 100) ∧
    ((brightness_set s (some lvl)).2.1.hwFrame.length = 128) ∧
    ((brightness_set s (some lvl)).2.1.zoneColors.length = 4) ∧
    ((brightness_set s (some lvl)).2.1.originalColors.length = 4) ∧
    (∀ z, z < 4 →
      (brightness_set s (some lvl)).2.1.originalColors.getD z ⟨0, 0, 0⟩ =
        readZoneFromFrame s.hwFrame (zoneOffset z) ∧
      readZoneFromFrame (brightness_set s (some lvl)).2.1.hwFrame (zoneOffset z) =
        apply_brightness_to_color (min lvl 100) (readZoneFromFrame s.hwFrame (zoneOffset z))) ∧
    ((brightness_set s (some lvl)).2.1.animationActive = s.animationActive) ∧
    ((brightness_set s (some lvl)).2.1.timerArmed = s.timerArmed) ∧
    ((brightness_set s (some lvl)).2.1.currentAnimation = s.currentAnimation) := by
  have hr : List.range 4 = [0, 1, 2, 3] := by decide
  refine ⟨?_, ?_, ?_, ?_, ?_, ?_, ?_, ?_⟩
  · simp [brightness_set, hr, fourzone_write, save_animation_state]
  · simp [brightness_set, hr, fourzone_write, save_animation_state,
      length_writeZoneToFrame, hf]
  · simp [brightness_set, hr, fourzone_write, save_animation_state, hz]
  · simp [brightness_set, hr, fourzone_write, save_animation_state, ho]
  · intro z hzlt
    interval_cases z <;>
      simp [brightness_set, hr, fourzone_write, save_animation_state,
        getD_set_self, getD_set_other, List.length_set, hz, ho,
        readZone_writeZone_same, readZone_writeZone_disjoint, length_writeZoneToFrame,
        hf, zoneOffset]
  · simp [brightness_set, hr, fourzone_write, save_animation_state]
  · simp [brightness_set, hr, fourzone_write, save_animation_state]
  · simp [brightness_set, hr, fourzone_write, save_animation_state]

theorem stop_animation_spec (s : Driver) (hf : s.hwFrame.length = 128)
    (hz : s.zoneColors.length = 4) (ho : s.originalColors.length = 4) :
    ((stop_animation s).1.globalBrightness = s.globalBrightness) ∧
    ((stop_animation s).1.originalColors = s.originalColors) ∧
    ((stop_animation s).1.currentAnimation = s.currentAnimation) ∧
    ((stop_animation s).1.animationActive = false) ∧
    ((stop_animation s).1.timerArmed = false) ∧
    ((stop_animation s).1.hwFrame.length = 128) ∧
    ((stop_animation s).1.zoneColors.length = 4) ∧
    (∀ z, z < 4 → readZoneFromFrame (stop_animation s).1.hwFrame (zoneOffset z) =
      apply_brightness_to_color s.globalBrightness (s.originalColors.getD z ⟨0, 0, 0⟩)) := by
  have hr : List.range 4 = [0, 1, 2, 3] := by decide
  refine ⟨?_, ?_, ?_, ?_, ?_, ?_, ?_, ?_⟩
  · simp [stop_animation, hr, fourzone_write]
  · simp [stop_animation, hr, fourzone_write]
  · simp [stop_animation, hr, fourzone_write]
  · simp [stop_animation, hr, fourzone_write]
  · simp [stop_animation, hr, fourzone_write]
  · simp [stop_animation, hr, fourzone_write, length_writeZoneToFrame, hf]
  · simp [stop_animation, hr, fourzone_write, hz]
  · intro z hzlt
    interval_cases z <;>
      simp [stop_animation, hr, fourzone_write,
        getD_set_self, getD_set_other, List.length_set, hz, ho,
        readZone_writeZone_same, readZone_writeZone_disjoint, length_writeZoneToFrame,
        hf, zoneOffset]

theorem update_all_zones_spec (s : Driver) (cols : List Color)
    (hf : s.hwFrame.length = 128) (hz : s.zoneColors.length = 4) :
    ((update_all_zones_with_colors s cols).1.globalBrightness = s.globalBrightness) ∧
    ((update_all_zones_with_colors s cols).1.originalColors = s.originalColors) ∧
    ((update_all_zones_with_colors s cols).1.currentAnimation = s.currentAnimation) ∧
    ((update_all_zones_with_colors s cols).1.animationActive = s.animationActive) ∧
    (∀ z, z < 4 →
      readZoneFromFrame (update_all_zones_with_colors s cols).1.hwFrame (zoneOffset z) =
        apply_brightness_to_color s.globalBrightness (cols.getD z ⟨0, 0, 0⟩)) := by
  have hr : List.range 4 = [0, 1, 2, 3] := by decide
  refine ⟨?_, ?_, ?_, ?_, ?_⟩
  · simp [update_all_zones_with_colors, hr, fourzone_write]
  · simp [update_all_zones_with_colors, hr, fourzone_write]
  · simp [update_all_zones_with_colors, hr, fourzone_write]
  · simp [update_all_zones_with_colors, hr, fourzone_write]
  · intro z hzlt
    interval_cases z <;>
      simp [update_all_zones_with_colors, hr, fourzone_write,
        getD_set_self, getD_set_other, List.length_set, hz,
        readZone_writeZone_same, readZone_writeZone_disjoint, length_writeZoneToFrame,
        hf, zoneOffset]

theorem zone_set_spec (s : Driver) (i : Nat) (hi : i < 4) (kstr : Except Int Nat)
    (c : Color) (hc : parse_rgb kstr = .ok c)
    (hf : s.hwFrame.length = 128) (hz : s.zoneColors.length = 4)
    (ho : s.originalColors.length = 4) :
    ((zone_set s i kstr).1 = 0) ∧
    ((zone_set s i kstr).2.1.animationActive = false) ∧
    ((zone_set s i kstr).2.1.timerArmed = false) ∧
    ((zone_set s i kstr).2.1.currentAnimation = ANIMATION_STATIC) ∧
    ((zone_set s i kstr).2.1.globalBrightness = s.globalBrightness) ∧
    ((zone_set s i kstr).2.1.originalColors = s.originalColors.set i
      (apply_brightness_to_color s.globalBrightness
        (s.originalColors.getD i ⟨0, 0, 0⟩))) ∧
    (∀ z, z < 4 → readZoneFromFrame (zone_set s i kstr).2.1.hwFrame (zoneOffset z) =
      apply_brightness_to_color s.globalBrightness
        ((zone_set s i kstr).2.1.originalColors.getD z ⟨0, 0, 0⟩)) := by
  have hr : List.range 4 = [0, 1, 2, 3] := by decide
  refine ⟨?_, ?_, ?_, ?_, ?_, ?_, ?_⟩
  · simp [zone_set, hc, stop_animation, hr, fourzone_write, save_animation_state]
  · simp [zone_set, hc, stop_animation, hr, fourzone_write, save_animation_state]
  · simp [zone_set, hc, stop_animation, hr, fourzone_write, save_animation_state]
  · simp [zone_set, hc, stop_animation, hr, fourzone_write, save_animation_state]
  · simp [zone_set, hc, stop_animation, hr, fourzone_write, save_animation_state]
  · interval_cases i <;>
      simp [zone_set, hc, stop_animation, hr, fourzone_write, save_animation_state,
        getD_set_self, getD_set_other, List.length_set, hz, ho]
  · intro z hzlt
    interval_cases i <;> interval_cases z <;>
      simp [zone_set, hc, stop_animation, hr, fourzone_write, save_animation_state,
        getD_set_self, getD_set_other, List.length_set, hz, ho,
        readZone_writeZone_same, readZone_writeZone_disjoint, length_writeZoneToFrame,
        hf, zoneOffset]

theorem all_set_spec (s : Driver) (kstr : Except Int Nat)
    (c : Color) (hc : parse_rgb kstr = .ok c)
    (hf : s.hwFrame.length = 128) (hz : s.zoneColors.length = 4)
    (ho : s.originalColors.length = 4) :
    ((all_set s kstr).1 = 0) ∧
    ((all_set s kstr).2.1.animationActive = false) ∧
    ((all_set s kstr).2.1.timerArmed = false) ∧
    ((all_set s kstr).2.1.currentAnimation = ANIMATION_STATIC) ∧
    ((all_set s kstr).2.1.globalBrightness = s.globalBrightness) ∧
    (∀ z, z < 4 → (all_set s kstr).2.1.originalColors.getD z ⟨0, 0, 0⟩ = c) ∧
    (∀ z, z < 4 → readZoneFromFrame (all_set s kstr).2.1.hwFrame (zoneOffset z) =
      apply_brightness_to_color s.globalBrightness c) := by
  have hr : List.range 4 = [0, 1, 2, 3] := by decide
  refine ⟨?_, ?_, ?_, ?_, ?_, ?_, ?_⟩
  · simp [all_set, hc, stop_animation, hr, fourzone_write, save_animation_state]
  · simp [all_set, hc, stop_animation, hr, fourzone_write, save_animation_state]
  · simp [all_set, hc, stop_animation, hr, fourzone_write, save_animation_state]
  · simp [all_set, hc, stop_animation, hr, fourzone_write, save_animation_state]
  · simp [all_set, hc, stop_animation, hr, fourzone_write, save_animation_state]
  · intro z hzlt
    interval_cases z <;>
      simp [all_set, hc, stop_animation, hr, fourzone_write, save_animation_state,
        getD_set_self, getD_set_other, List.length_set, hz, ho]
  · intro z hzlt
    interval_cases z <;>
      simp [all_set, hc, stop_animation, hr, fourzone_write, save_animation_state,
        getD_set_self, getD_set_other, List.length_set, hz, ho,
        readZone_writeZone_same, readZone_writeZone_disjoint, length_writeZoneToFrame,
        hf, zoneOffset]

/-! ## Claim theorems -/

/-- Claim C1 (counterexample): the claim "for every operation that writes a
color to hardware (including an animation frame push), each channel written
equals the zone's Original Color channel times Global Brightness divided by
100" is false on the code.  Concretely, with all Original Colors white,
brightness 100, the disco effect at speed 1 and elapsed time 225 ms, the
animation frame push (`animation_work_func` → `animation_disco` →
`update_all_zones_with_colors`) writes (0,0,0) to zone 0 while the zone's
Original Color scaled by the brightness is (255,255,255). -/
theorem claim_C1_counterexample :
    readZoneFromFrame (animation_work_func discoState 225).1.hwFrame (zoneOffset 0) ≠
      apply_brightness_to_color (animation_work_func discoState 225).1.globalBrightness
        ((animation_work_func discoState 225).1.originalColors.getD 0 ⟨0, 0, 0⟩) := by
  decide

/-- Claim C1 (amended): after a direct zone write, an all-zones write, a
brightness change, or an animation stop, every zone's 3 bytes in the
hardware frame equal that zone's (post-operation) Original Color scaled by
the (post-operation) Global Brightness with truncating division per
channel; an animation frame push instead writes each zone's *generated
frame color* scaled by Global Brightness, leaving the Original Colors
unchanged. -/
theorem claim_C1_thm (s : Driver) (h : s.wf)
    (i : Nat) (hi : i < 4) (kstr : Except Int Nat) (c : Color)
    (hc : parse_rgb kstr = .ok c) (lvl : Nat) (cols : List Color) :
    (∀ z, z < 4 → readZoneFromFrame (zone_set s i kstr).2.1.hwFrame (zoneOffset z) =
      apply_brightness_to_color (zone_set s i kstr).2.1.globalBrightness
        ((zone_set s i kstr).2.1.originalColors.getD z ⟨0, 0, 0⟩)) ∧
    (∀ z, z < 4 → readZoneFromFrame (all_set s kstr).2.1.hwFrame (zoneOffset z) =
      apply_brightness_to_color (all_set s kstr).2.1.globalBrightness
        ((all_set s kstr).2.1.originalColors.getD z ⟨0, 0, 0⟩)) ∧
    (∀ z, z < 4 →
      readZoneFromFrame (brightness_set s (some lvl)).2.1.hwFrame (zoneOffset z) =
        apply_brightness_to_color (brightness_set s (some lvl)).2.1.globalBrightness
          ((brightness_set s (some lvl)).2.1.originalColors.getD z ⟨0, 0, 0⟩)) ∧
    (∀ z, z < 4 → readZoneFromFrame (stop_animation s).1.hwFrame (zoneOffset z) =
      apply_brightness_to_color (stop_animation s).1.globalBrightness
        ((stop_animation s).1.originalColors.getD z ⟨0, 0, 0⟩)) ∧
    ((update_all_zones_with_colors s cols).1.originalColors = s.originalColors ∧
      ∀ z, z < 4 →
        readZoneFromFrame (update_all_zones_with_colors s cols).1.hwFrame (zoneOffset z) =
          apply_brightness_to_color (update_all_zones_with_colors s cols).1.globalBrightness
            (cols.getD z ⟨0, 0, 0⟩)) := by
  obtain ⟨hf, hfb, hz, hzw, ho, how, hb⟩ := h
  have Z := zone_set_spec s i hi kstr c hc hf hz ho
  have A := all_set_spec s kstr c hc hf hz ho
  have B := brightness_set_spec s hf hz ho lvl
  have S := stop_animation_spec s hf hz ho
  have U := update_all_zones_spec s cols hf hz
  refine ⟨?_, ?_, ?_, ?_, ?_, ?_⟩
  · intro z hz4
    rw [Z.2.2.2.2.1]
    exact Z.2.2.2.2.2.2 z hz4
  · intro z hz4
    rw [A.2.2.2.2.1, A.2.2.2.2.2.1 z hz4]
    exact A.2.2.2.2.2.2 z hz4
  · intro z hz4
    rw [B.1, (B.2.2.2.2.1 z hz4).1]
    exact (B.2.2.2.2.1 z hz4).2
  · intro z hz4
    rw [S.1, S.2.1]
    exact S.2.2.2.2.2.2.2 z hz4
  · exact U.2.1
  · intro z hz4
    rw [U.1]
    exact U.2.2.2.2 z hz4

/-- Claim C1 (witness): the amended theorem applied to the concrete running
disco state, a direct write of `0000FF` to zone 0, observed at zone 2. -/
theorem claim_C1_witness :
    readZoneFromFrame (zone_set discoState 0 (.ok 255)).2.1.hwFrame (zoneOffset 2) =
      apply_brightness_to_color (zone_set discoState 0 (.ok 255)).2.1.globalBrightness
        ((zone_set discoState 0 (.ok 255)).2.1.originalColors.getD 2 ⟨0, 0, 0⟩) :=
  (claim_C1_thm discoState (by decide) 0 (by decide) (.ok 255) ⟨255, 0, 0⟩ rfl 50 []).1 2
    (by decide)

/-- Claim C2 (counterexample): the claim that within each 3-byte group the
wire byte order is (blue, green, red) is false on the code.  Writing the
color blue=3, green=2, red=1 to zone 0 places the *red* channel (1), not
the blue channel (3), at the group's first byte 25. -/
theorem claim_C2_counterexample :
    (writeZoneToFrame (List.replicate 128 0) (zoneOffset 0) ⟨3, 2, 1⟩).getD
        (zoneOffset 0) 0 ≠ (⟨3, 2, 1⟩ : Color).blue := by
  decide

/-- Claim C2 (amended): for every zone `i` in 0..3, a zone write changes
exactly the 3 consecutive bytes at offsets `25+3i`, `25+3i+1`, `25+3i+2` of
the 128-byte wire frame, and a zone read depends on exactly those bytes;
within each 3-byte group the byte order is (red, green, blue). -/
theorem claim_C2_thm (f : List Nat) (c : Color) (i : Nat) (hi : i < 4)
    (hf : f.length = 128) :
    ((writeZoneToFrame f (zoneOffset i) c).getD (zoneOffset i) 0 = c.red ∧
     (writeZoneToFrame f (zoneOffset i) c).getD (zoneOffset i + 1) 0 = c.green ∧
     (writeZoneToFrame f (zoneOffset i) c).getD (zoneOffset i + 2) 0 = c.blue) ∧
    (∀ j, j ≠ zoneOffset i → j ≠ zoneOffset i + 1 → j ≠ zoneOffset i + 2 →
      (writeZoneToFrame f (zoneOffset i) c).getD j 0 = f.getD j 0) ∧
    ((readZoneFromFrame f (zoneOffset i)).red = f.getD (zoneOffset i) 0 ∧
     (readZoneFromFrame f (zoneOffset i)).green = f.getD (zoneOffset i + 1) 0 ∧
     (readZoneFromFrame f (zoneOffset i)).blue = f.getD (zoneOffset i + 2) 0) ∧
    (∀ g : List Nat, g.getD (zoneOffset i) 0 = f.getD (zoneOffset i) 0 →
      g.getD (zoneOffset i + 1) 0 = f.getD (zoneOffset i + 1) 0 →
      g.getD (zoneOffset i + 2) 0 = f.getD (zoneOffset i + 2) 0 →
      readZoneFromFrame g (zoneOffset i) = readZoneFromFrame f (zoneOffset i)) := by
  have hoff : zoneOffset i + 2 < 128 := by unfold zoneOffset; omega
  refine ⟨⟨?_, ?_, ?_⟩, ?_, ⟨rfl, rfl, rfl⟩, ?_⟩
  · unfold writeZoneToFrame
    rw [getD_set_other _ _ _ (by omega), getD_set_other _ _ _ (by omega),
      getD_set_self _ _ _ _ (by omega)]
  · unfold writeZoneToFrame
    rw [getD_set_other _ _ _ (by omega), getD_set_self _ _ _ _ (by simp; omega)]
  · unfold writeZoneToFrame
    rw [getD_set_self _ _ _ _ (by simp; omega)]
  · intro j h0 h1 h2
    unfold writeZoneToFrame
    rw [getD_set_other _ _ _ (by omega), getD_set_other _ _ _ (by omega),
      getD_set_other _ _ _ (by omega)]
  · intro g h0 h1 h2
    unfold readZoneFromFrame
    rw [h0, h1, h2]

/-- Claim C2 (witness): the amended theorem applied to a concrete frame,
color and zone. -/
theorem claim_C2_witness :
    (writeZoneToFrame (List.replicate 128 7) (zoneOffset 1) ⟨30, 20, 10⟩).getD
        (zoneOffset 1) 0 = (⟨30, 20, 10⟩ : Color).red :=
  (claim_C2_thm (List.replicate 128 7) ⟨30, 20, 10⟩ 1 (by decide) (by decide)).1.1

/-- Claim C3: `parse_rgb` accepts any successfully base-16-parsed value up
to `0xFFFFFF` and fails with `-EINVAL` for any larger value; a parse
failure of the input string is propagated as an error.  For every accepted
value, the three lowest-order byte groups of the parsed number — listed in
the order they appear in the hex string `RRGGBB`, most significant of the
three first — map to red, green, blue respectively: the produced color
satisfies `red * 0x10000 + green * 0x100 + blue = value` with 8-bit
channels. -/
theorem claim_C3_thm :
    (∀ v : Nat, v ≤ 0xFFFFFF →
      ∃ c : Color, parse_rgb (.ok v) = .ok c ∧ c.wf ∧
        c.red * 65536 + c.green * 256 + c.blue = v ∧
        c.red = v / 65536 % 256 ∧ c.green = v / 256 % 256 ∧ c.blue = v % 256) ∧
    (∀ v : Nat, v > 0xFFFFFF → parse_rgb (.ok v) = .error EINVAL_err) ∧
    (∀ e : Int, parse_rgb (.error e) = .error e) := by
  refine ⟨?_, ?_, ?_⟩
  · intro v hv
    refine ⟨⟨v % 256, v / 256 % 256, v / 65536 % 256⟩, ?_, ?_, ?_, rfl, rfl, rfl⟩
    · simp [parse_rgb]
      omega
    · refine ⟨?_, ?_, ?_⟩ <;> simp <;> omega
    · simp
      omega
  · intro v hv
    simp [parse_rgb]
    omega
  · intro e
    rfl

/-- Claim C3 (witness): the theorem applied at the concrete accepted value
`0xABCDEF` and the concrete rejected value `0x1000000`. -/
theorem claim_C3_witness :
    (∃ c : Color, parse_rgb (.ok 0xABCDEF) = .ok c ∧ c.wf ∧
      c.red * 65536 + c.green * 256 + c.blue = 0xABCDEF ∧
      c.red = 0xABCDEF / 65536 % 256 ∧ c.green = 0xABCDEF / 256 % 256 ∧
      c.blue = 0xABCDEF % 256) ∧
    parse_rgb (.ok 0x1000000) = .error EINVAL_err :=
  ⟨claim_C3_thm.1 0xABCDEF (by decide), claim_C3_thm.2.1 0x1000000 (by decide)⟩

/-- Claim C4 (counterexample): the claim that *every* direct color write —
including a brightness write — stops the animation timer and forces the
scheduler to Static is false on the code.  Writing brightness 50 while the
disco effect is running leaves the animation active, the timer armed and
the mode unchanged (disco, not static). -/
theorem claim_C4_counterexample :
    (brightness_set discoState (some 50)).2.1.animationActive = true ∧
    (brightness_set discoState (some 50)).2.1.timerArmed = true ∧
    (brightness_set discoState (some 50)).2.1.currentAnimation = ANIMATION_DISCO := by
  decide

/-- Claim C4 (amended): a single-zone write and an all-zones write stop any
running animation timer and force the scheduler to the Static state,
discarding the active effect, before storing Original Colors and writing
the scaled colors; a brightness write, however, leaves the animation
active/timer flags and the current mode exactly as they were. -/
theorem claim_C4_thm (s : Driver) (i : Nat) (hi : i < 4)
    (kstr : Except Int Nat) (c : Color) (hc : parse_rgb kstr = .ok c)
    (hf : s.hwFrame.length = 128) (hz : s.zoneColors.length = 4)
    (ho : s.originalColors.length = 4) (lvl : Nat) :
    ((zone_set s i kstr).2.1.animationActive = false ∧
     (zone_set s i kstr).2.1.timerArmed = false ∧
     (zone_set s i kstr).2.1.currentAnimation = ANIMATION_STATIC) ∧
    ((all_set s kstr).2.1.animationActive = false ∧
     (all_set s kstr).2.1.timerArmed = false ∧
     (all_set s kstr).2.1.currentAnimation = ANIMATION_STATIC) ∧
    ((brightness_set s (some lvl)).2.1.animationActive = s.animationActive ∧
     (brightness_set s (some lvl)).2.1.timerArmed = s.timerArmed ∧
     (brightness_set s (some lvl)).2.1.currentAnimation = s.currentAnimation) := by
  have Z := zone_set_spec s i hi kstr c hc hf hz ho
  have A := all_set_spec s kstr c hc hf hz ho
  have B := brightness_set_spec s hf hz ho lvl
  exact ⟨⟨Z.2.1, Z.2.2.1, Z.2.2.2.1⟩, ⟨A.2.1, A.2.2.1, A.2.2.2.1⟩,
    ⟨B.2.2.2.2.2.1, B.2.2.2.2.2.2.1, B.2.2.2.2.2.2.2⟩⟩

/-- Claim C4 (witness): the amended theorem applied to the concrete running
disco state with a zone-0 write of `00FF00` and a brightness write of 50. -/
theorem claim_C4_witness :
    (zone_set discoState 0 (.ok 65280)).2.1.animationActive = false ∧
    (brightness_set discoState (some 50)).2.1.currentAnimation =
      discoState.currentAnimation :=
  ⟨(claim_C4_thm discoState 0 (by decide) (.ok 65280) ⟨0, 255, 0⟩ rfl (by decide)
      (by decide) (by decide) 50).1.1,
   (claim_C4_thm discoState 0 (by decide) (.ok 65280) ⟨0, 255, 0⟩ rfl (by decide)
      (by decide) (by decide) 50).2.2.2.2⟩

/-- Claim C5 (counterexample): the claim's consequence that two consecutive
brightness writes do *not* compound on the previously-scaled value is false
on the code.  Starting from a frame fully lit at (255,255,255), writing
brightness 50 and then brightness 100 leaves zone 0 at (127,127,127) — the
100% write re-scales the already-halved hardware color, i.e. the scalings
compound — instead of restoring (255,255,255), the original baseline
re-scaled by the final percentage. -/
theorem claim_C5_counterexample :
    readZoneFromFrame
        (brightness_set (brightness_set brightState (some 50)).2.1 (some 100)).2.1.hwFrame
        (zoneOffset 0) =
      apply_brightness_to_color 100 (apply_brightness_to_color 50
        (readZoneFromFrame brightState.hwFrame (zoneOffset 0))) ∧
    readZoneFromFrame
        (brightness_set (brightness_set brightState (some 50)).2.1 (some 100)).2.1.hwFrame
        (zoneOffset 0) ≠
      apply_brightness_to_color 100 (readZoneFromFrame brightState.hwFrame (zoneOffset 0)) := by
  decide

/-- Claim C5 (amended): setting brightness reads every zone's current
hardware color (not the stored Original Color) as the new baseline, stores
it as the zone's Original Color, rescales it by the new percentage and
writes each zone.  Consequently, a second brightness write with no
intervening direct color write takes the *already-scaled* hardware colors
as its baseline, so the two scalings compound
(`hw * lvl1 / 100 * lvl2 / 100`), rather than re-scaling the pre-scaling
colors. -/
theorem claim_C5_thm (s : Driver) (hf : s.hwFrame.length = 128)
    (hz : s.zoneColors.length = 4) (ho : s.originalColors.length = 4)
    (lvl lvl2 : Nat) (hl : lvl ≤ 100) (hl2 : lvl2 ≤ 100) :
    (∀ z, z < 4 →
      (brightness_set s (some lvl)).2.1.originalColors.getD z ⟨0, 0, 0⟩ =
        readZoneFromFrame s.hwFrame (zoneOffset z) ∧
      readZoneFromFrame (brightness_set s (some lvl)).2.1.hwFrame (zoneOffset z) =
        apply_brightness_to_color lvl (readZoneFromFrame s.hwFrame (zoneOffset z))) ∧
    ((brightness_set s (some lvl)).2.1.globalBrightness = lvl) ∧
    (∀ z, z < 4 →
      (brightness_set (brightness_set s (some lvl)).2.1
          (some lvl2)).2.1.originalColors.getD z ⟨0, 0, 0⟩ =
        apply_brightness_to_color lvl (readZoneFromFrame s.hwFrame (zoneOffset z)) ∧
      readZoneFromFrame
          (brightness_set (brightness_set s (some lvl)).2.1 (some lvl2)).2.1.hwFrame
          (zoneOffset z) =
        apply_brightness_to_color lvl2 (apply_brightness_to_color lvl
          (readZoneFromFrame s.hwFrame (zoneOffset z)))) := by
  have hmin1 : min lvl 100 = lvl := Nat.min_eq_left hl
  have hmin2 : min lvl2 100 = lvl2 := Nat.min_eq_left hl2
  have B1 := brightness_set_spec s hf hz ho lvl
  have B2 := brightness_set_spec (brightness_set s (some lvl)).2.1
    B1.2.1 B1.2.2.1 B1.2.2.2.1 lvl2
  refine ⟨?_, ?_, ?_⟩
  · intro z hz4
    refine ⟨(B1.2.2.2.2.1 z hz4).1, ?_⟩
    rw [(B1.2.2.2.2.1 z hz4).2, hmin1]
  · rw [B1.1, hmin1]
  · intro z hz4
    refine ⟨?_, ?_⟩
    · rw [(B2.2.2.2.2.1 z hz4).1, (B1.2.2.2.2.1 z hz4).2, hmin1]
    · rw [(B2.2.2.2.2.1 z hz4).2, hmin2, (B1.2.2.2.2.1 z hz4).2, hmin1]

/-- Claim C5 (witness): the amended theorem applied to the concrete fully
lit state with brightness writes 50 then 100, observed at zone 0. -/
theorem claim_C5_witness :
    readZoneFromFrame
        (brightness_set (brightness_set brightState (some 50)).2.1 (some 100)).2.1.hwFrame
        (zoneOffset 0) =
      apply_brightness_to_color 100 (apply_brightness_to_color 50
        (readZoneFromFrame brightState.hwFrame (zoneOffset 0))) :=
  ((claim_C5_thm brightState (by decide) (by decide) (by decide) 50 100 (by decide)
    (by decide)).2.2 0 (by decide)).2

/-- Claim C6: `apply_brightness_to_color` computes each of the red, green
and blue channels independently as `channel * percent / 100` with
truncating division; hence for every color with 8-bit channels and every
percent in 0..100, each output channel is at most the input channel,
percent 100 is the identity, and percent 0 yields (0,0,0). -/
theorem claim_C6_thm (c : Color) (p : Nat) (hc : c.wf) (hp : p ≤ 100) :
    apply_brightness_to_color p c =
      ⟨c.blue * p / 100, c.green * p / 100, c.red * p / 100⟩ ∧
    (apply_brightness_to_color p c).red ≤ c.red ∧
    (apply_brightness_to_color p c).green ≤ c.green ∧
    (apply_brightness_to_color p c).blue ≤ c.blue ∧
    apply_brightness_to_color 100 c = c ∧
    apply_brightness_to_color 0 c = ⟨0, 0, 0⟩ := by
  obtain ⟨hb, hg, hr⟩ := hc
  have key : ∀ x q : Nat, x < 256 → q ≤ 100 → scaleChan x q = x * q / 100 ∧ x * q / 100 ≤ x := by
    intro x q hx hq
    have hle : x * q / 100 ≤ x := by
      have h1 : x * q ≤ x * 100 := Nat.mul_le_mul_left x hq
      have h2 : x * q / 100 ≤ x * 100 / 100 := Nat.div_le_div_right h1
      omega
    refine ⟨?_, hle⟩
    unfold scaleChan u8
    omega
  have k100 : ∀ x : Nat, x < 256 → scaleChan x 100 = x := by
    intro x hx
    rw [(key x 100 hx (le_refl _)).1]
    omega
  have k0 : ∀ x : Nat, x < 256 → scaleChan x 0 = 0 := by
    intro x hx
    rw [(key x 0 hx (by omega)).1]
    omega
  refine ⟨?_, ?_, ?_, ?_, ?_, ?_⟩
  · unfold apply_brightness_to_color
    rw [(key _ _ hb hp).1, (key _ _ hg hp).1, (key _ _ hr hp).1]
  · unfold apply_brightness_to_color
    simp only
    rw [(key _ _ hr hp).1]
    exact (key _ _ hr hp).2
  · unfold apply_brightness_to_color
    simp only
    rw [(key _ _ hg hp).1]
    exact (key _ _ hg hp).2
  · unfold apply_brightness_to_color
    simp only
    rw [(key _ _ hb hp).1]
    exact (key _ _ hb hp).2
  · unfold apply_brightness_to_color
    rw [k100 _ hb, k100 _ hg, k100 _ hr]
  · unfold apply_brightness_to_color
    rw [k0 _ hb, k0 _ hg, k0 _ hr]

/-- Claim C6 (witness): the theorem applied at the concrete color
(40,120,200) with percent 50. -/
theorem claim_C6_witness :
    apply_brightness_to_color 50 ⟨40, 120, 200⟩ =
      ⟨40 * 50 / 100, 120 * 50 / 100, 200 * 50 / 100⟩ ∧
    apply_brightness_to_color 100 (⟨40, 120, 200⟩ : Color) = ⟨40, 120, 200⟩ :=
  ⟨(claim_C6_thm ⟨40, 120, 200⟩ 50 (by decide) (by decide)).1,
   (claim_C6_thm ⟨40, 120, 200⟩ 50 (by decide) (by decide)).2.2.2.2.1⟩

theorem decInt32_enc_bytes (x : Int) (h1 : -2147483648 ≤ x) (h2 : x < 2147483648) :
    decInt32 ((x % 4294967296).toNat % 256) ((x % 4294967296).toNat / 256 % 256)
      ((x % 4294967296).toNat / 65536 % 256) ((x % 4294967296).toNat / 16777216 % 256) = x := by
  unfold decInt32
  simp only []
  split <;> omega

theorem load_encRecord (t : Driver) (m sp br : Int)
    (hm1 : -2147483648 ≤ m) (hm2 : m < 2147483648)
    (hsp1 : -2147483648 ≤ sp) (hsp2 : sp < 2147483648)
    (hbr1 : -2147483648 ≤ br) (hbr2 : br < 2147483648)
    (c0 c1 c2 c3 : Color) :
    load_animation_state (some (encRecord m sp br [c0, c1, c2, c3])) t =
      { t with
          currentAnimation := if 0 ≤ m ∧ m < 10 then m.toNat else t.currentAnimation
          animationSpeed := if 1 ≤ sp ∧ sp ≤ 10 then sp.toNat else t.animationSpeed
          globalBrightness := if 0 ≤ br ∧ br ≤ 100 then br.toNat else t.globalBrightness
          originalColors := [c0, c1, c2, c3] } := by
  cases t
  simp only [load_animation_state, encRecord, encInt32, encColor, List.map,
    List.flatten, List.cons_append, List.nil_append, List.append_nil,
    List.length_cons, List.length_nil, List.getD_cons_zero, List.getD_cons_succ,
    decColor]
  rw [decInt32_enc_bytes m hm1 hm2, decInt32_enc_bytes sp hsp1 hsp2,
    decInt32_enc_bytes br hbr1 hbr2]
  norm_num [ANIMATION_COUNT]
  split_ifs <;> simp

/-- Claim C7 (counterexample): the claim that a record of the wrong size is
rejected entirely is false on the code: `kernel_read` asks for exactly 24
bytes, so only a *shorter* file fails the size check.  A concrete 25-byte
state file (a valid record with a trailing byte) is accepted and applied,
changing the driver state. -/
theorem claim_C7_counterexample :
    longStateFile.length ≠ 24 ∧
    load_animation_state (some longStateFile) initState ≠ initState := by
  decide

/-- Claim C7 (amended): for every in-range state (mode < 10, speed 1..10,
brightness 0..100, any four colors), save followed by load reproduces
exactly the same mode, speed, brightness and four colors; a record
*shorter* than the fixed 24-byte size is rejected entirely (a longer one
has its first 24 bytes applied); and mode, speed and brightness are
range-validated independently on load, an out-of-range field being left at
its in-memory value while the other valid fields — and the colors,
unconditionally — are still applied. -/
theorem claim_C7_thm (t s : Driver)
    (hm : s.currentAnimation < 10) (hs1 : 1 ≤ s.animationSpeed)
    (hs2 : s.animationSpeed ≤ 10) (hbr : s.globalBrightness ≤ 100)
    (c0 c1 c2 c3 : Color) (hcols : s.originalColors = [c0, c1, c2, c3]) :
    (load_animation_state (save_animation_state s).savedState t =
      { t with
          currentAnimation := s.currentAnimation
          animationSpeed := s.animationSpeed
          globalBrightness := s.globalBrightness
          originalColors := [c0, c1, c2, c3] }) ∧
    (∀ b : List Nat, b.length < 24 → load_animation_state (some b) t = t) ∧
    (load_animation_state none t = t) ∧
    (∀ m sp br : Int,
      -2147483648 ≤ m → m < 2147483648 → -2147483648 ≤ sp → sp < 2147483648 →
      -2147483648 ≤ br → br < 2147483648 →
      load_animation_state (some (encRecord m sp br [c0, c1, c2, c3])) t =
        { t with
            currentAnimation := if 0 ≤ m ∧ m < 10 then m.toNat else t.currentAnimation
            animationSpeed := if 1 ≤ sp ∧ sp ≤ 10 then sp.toNat else t.animationSpeed
            globalBrightness := if 0 ≤ br ∧ br ≤ 100 then br.toNat else t.globalBrightness
            originalColors := [c0, c1, c2, c3] }) := by
  refine ⟨?_, ?_, ?_, ?_⟩
  · have hsv : (save_animation_state s).savedState =
        some (encRecord (s.currentAnimation : Int) (s.animationSpeed : Int)
          (s.globalBrightness : Int) [c0, c1, c2, c3]) := by
      simp [save_animation_state, hcols]
    rw [hsv, load_encRecord t _ _ _ (by omega) (by omega) (by omega) (by omega)
      (by omega) (by omega) c0 c1 c2 c3]
    rw [if_pos (by omega), if_pos (by omega), if_pos (by omega)]
    simp
  · intro b hb
    simp [load_animation_state, hb]
  · rfl
  · intro m sp br hm1 hm2 hsp1 hsp2 hbr1 hbr2
    exact load_encRecord t m sp br hm1 hm2 hsp1 hsp2 hbr1 hbr2 c0 c1 c2 c3

/-- Claim C7 (witness): the amended theorem's round-trip clause applied to
the concrete running disco state saved and re-loaded over the quiescent
state. -/
theorem claim_C7_witness :
    load_animation_state (save_animation_state discoState).savedState initState =
      { initState with
          currentAnimation := discoState.currentAnimation
          animationSpeed := discoState.animationSpeed
          globalBrightness := discoState.globalBrightness
          originalColors := [whiteC, whiteC, whiteC, whiteC] } :=
  (claim_C7_thm initState discoState (by decide) (by decide) (by decide) (by decide)
    whiteC whiteC whiteC whiteC (by decide)).1

/-- Claim C8: `encode_outsize_for_pvsz` maps the requested output length to
a transport size class by a monotonic step function: every length ≤ 0 maps
to the smallest class 1, every length > 4096 is rejected with `-EINVAL`
(no clamping), the function is monotone on lengths ≤ 4096, and within
1..4095 the class increases exactly when crossing the 4, 128 and 1024 byte
boundaries (the step at 4096 is the transition to rejection). -/
theorem claim_C8_thm :
    (∀ n : Int, n ≤ 0 → encode_outsize_for_pvsz n = 1) ∧
    (∀ n : Int, n > 4096 → encode_outsize_for_pvsz n = EINVAL_err) ∧
    (∀ m n : Int, m ≤ n → n ≤ 4096 →
      encode_outsize_for_pvsz m ≤ encode_outsize_for_pvsz n) ∧
    (∀ n : Int, 0 < n → n < 4096 →
      (encode_outsize_for_pvsz n < encode_outsize_for_pvsz (n + 1) ↔
        n = 4 ∨ n = 128 ∨ n = 1024)) ∧
    (∀ n : Int, 0 < n → n ≤ 4096 → 1 ≤ encode_outsize_for_pvsz n ∧
      encode_outsize_for_pvsz n ≤ 5) := by
  unfold encode_outsize_for_pvsz EINVAL_err
  refine ⟨?_, ?_, ?_, ?_, ?_⟩
  · intro n hn
    split_ifs <;> omega
  · intro n hn
    split_ifs <;> omega
  · intro m n hmn hn
    split_ifs <;> omega
  · intro n h0 h4096
    split_ifs <;> omega
  · intro n h0 h4096
    split_ifs <;> omega

/-- Claim C8 (witness): the theorem applied at concrete boundary inputs:
-7 and 0 map to class 1, 5000 is rejected, 100 ≤ 2000 is monotone, and the
step at 128 is a strict increase while 129 → 130 is not. -/
theorem claim_C8_witness :
    encode_outsize_for_pvsz (-7) = 1 ∧
    encode_outsize_for_pvsz 0 = 1 ∧
    encode_outsize_for_pvsz 5000 = EINVAL_err ∧
    encode_outsize_for_pvsz 100 ≤ encode_outsize_for_pvsz 2000 ∧
    (encode_outsize_for_pvsz 128 < encode_outsize_for_pvsz 129 ↔
      (128 : Int) = 4 ∨ (128 : Int) = 128 ∨ (128 : Int) = 1024) ∧
    (encode_outsize_for_pvsz 129 < encode_outsize_for_pvsz 130 ↔
      (129 : Int) = 4 ∨ (129 : Int) = 128 ∨ (129 : Int) = 1024) :=
  ⟨claim_C8_thm.1 (-7) (by norm_num),
   claim_C8_thm.1 0 (by norm_num),
   claim_C8_thm.2.1 5000 (by norm_num),
   claim_C8_thm.2.2.1 100 2000 (by norm_num) (by norm_num),
   claim_C8_thm.2.2.2.1 128 (by norm_num) (by norm_num),
   claim_C8_thm.2.2.2.1 129 (by norm_num) (by norm_num)⟩

/-- Claim C9: for every non-zero firmware status code, `hp_wmi_perform_query`
returns that status code (the `u32` reinterpreted as a C `int`, which is
numerically equal for codes below 2³¹) as its non-zero failure result; the
warning log fires exactly for codes other than "unknown command" (0x03) and
"unknown command-type" (0x04), which are still returned. -/
theorem claim_C9_thm (buffer payload : List Nat) (insize outsize : Int)
    (hin : insize ≤ 128) (hout0 : 0 ≤ outsize) (hout : outsize ≤ 4096)
    (sig rc : Nat) (hrc : 0 < rc) (hrc2 : rc < 4294967296) :
    (hp_wmi_perform_query buffer insize outsize (.buffer sig rc payload)).ret = toInt32 rc ∧
    (hp_wmi_perform_query buffer insize outsize (.buffer sig rc payload)).ret ≠ 0 ∧
    ((hp_wmi_perform_query buffer insize outsize (.buffer sig rc payload)).statusWarned
        = true ↔ rc ≠ 3 ∧ rc ≠ 4) ∧
    (rc < 2147483648 →
      (hp_wmi_perform_query buffer insize outsize (.buffer sig rc payload)).ret = (rc : Int)) := by
  have hmid : 0 ≤ encode_outsize_for_pvsz outsize := by
    unfold encode_outsize_for_pvsz EINVAL_err
    split_ifs <;> omega
  have hm : rc % 4294967296 = rc := Nat.mod_eq_of_lt hrc2
  have hne : toInt32 rc ≠ 0 := by
    unfold toInt32
    simp only [hm]
    split <;> omega
  simp only [hp_wmi_perform_query]
  rw [if_neg (by omega), if_neg (by omega), if_pos hne]
  refine ⟨rfl, hne, ?_, ?_⟩
  · simp only [Bool.and_eq_true, bne_iff_ne, ne_eq]
    unfold toInt32
    simp only [hm]
    constructor
    · intro h
      constructor
      · intro h3; apply h.1; subst h3; split <;> omega
      · intro h4; apply h.2; subst h4; split <;> omega
    · intro h
      constructor
      · intro h3
        have : rc = 3 := by revert h3; split <;> omega
        exact h.1 this
      · intro h4
        have : rc = 4 := by revert h4; split <;> omega
        exact h.2 this
  · intro hsmall
    unfold toInt32
    simp only [hm]
    rw [if_pos (by omega)]

/-- Claim C9 (witness): the theorem applied to a concrete reply with status
code 7 (returned and logged) and to one with status code 3 (returned,
suppressed from the warning log). -/
theorem claim_C9_witness :
    (hp_wmi_perform_query [] 0 4 (.buffer 1414742347 7 [])).ret = (7 : Int) ∧
    ((hp_wmi_perform_query [] 0 4 (.buffer 1414742347 3 [])).statusWarned = true ↔
      (3 : Nat) ≠ 3 ∧ (3 : Nat) ≠ 4) :=
  ⟨(claim_C9_thm [] [] 0 4 (by norm_num) (by norm_num) (by norm_num) 1414742347 7
      (by norm_num) (by norm_num)).2.2.2 (by norm_num),
   (claim_C9_thm [] [] 0 4 (by norm_num) (by norm_num) (by norm_num) 1414742347 3
      (by norm_num) (by norm_num)).2.2.1⟩

/-- Claim C10: if color parsing fails (the string does not parse as
base 16, or the value exceeds 0xFFFFFF), the single-zone and all-zones
write operations return the error atomically: the entire driver state —
zone colors, Original Colors, animation mode, timer and flags, hardware
frame and persisted state — is returned unchanged, and the empty query
trace shows no firmware query is issued. -/
theorem claim_C10_thm (s : Driver) (i : Nat) (kstr : Except Int Nat) (e : Int)
    (h : parse_rgb kstr = .error e) :
    zone_set s i kstr = (e, s, []) ∧ all_set s kstr = (e, s, []) := by
  unfold zone_set all_set
  rw [h]
  exact ⟨rfl, rfl⟩

/-- Claim C10 (witness): the theorem applied to the concrete out-of-range
value 0x1000000 against the quiescent state. -/
theorem claim_C10_witness :
    zone_set initState 0 (.ok 16777216) = (EINVAL_err, initState, []) ∧
    all_set initState (.ok 16777216) = (EINVAL_err, initState, []) :=
  claim_C10_thm initState 0 (.ok 16777216) EINVAL_err rfl
